import Mathlib

/-!
Verification of the `Teeth3DS` dataset adapter
(`torch_geometric/datasets/teeth3ds.py`).

The development shallowly embeds the two pieces of logic of that module:

* `processFile` — the per-mesh procedure `Teeth3DS.process_file`: vertex
  subsampling, gathering of positions/normals, segmentation alignment,
  landmark grouping, jaw extraction, and the `pre_filter`/`pre_transform`
  hooks;
* `processAll` — the driver loop `Teeth3DS.process`, together with
  `processedFileNames` (the manifest union) and `datasetLen`
  (`Teeth3DS.len`).

External collaborators (the mesh loader, `np.random.choice`,
`bucket_fps_kdline_sampling`, the JSON parser, the file system) are
modelled as inputs: a `FileEnv` supplies the parsed contents that the
Python code would read from disk, and a `Samplers` record supplies the
index lists the two sampling routines would return.  Coordinates are
modelled as integer triples: none of the verified properties depends on
arithmetic on the coordinates, only on how they are moved around.

Python `str.split` is reimplemented over `List Char` (`pySplit`) because
the claims about jaw extraction depend on its exact semantics
(non-overlapping, left-to-right, empty pieces kept).
-/

/-! ## Python string splitting -/

/-- One step of Python `str.split(sep)` on character lists.  `fuel` bounds
the recursion; `pySplitL` passes the length of the string, which is enough
because every step consumes at least one character (for nonempty `sep`). -/
def pySplitAux (sep : List Char) : Nat → List Char → List (List Char)
  | _, [] => [[]]
  | 0, s => [s]
  | fuel + 1, c :: rest =>
    if sep.isPrefixOf (c :: rest) then
      [] :: pySplitAux sep fuel ((c :: rest).drop sep.length)
    else
      match pySplitAux sep fuel rest with
      | [] => [[c]]
      | g :: gs => (c :: g) :: gs

/-- Python `s.split(sep)` on character lists (for nonempty `sep`):
non-overlapping occurrences, scanned left to right, empty pieces kept. -/
def pySplitL (sep s : List Char) : List (List Char) :=
  pySplitAux sep s.length s

/-- Python `s.split(sep)` on `String` (for nonempty `sep`). -/
def pySplit (s sep : String) : List String :=
  (pySplitL sep.data s.data).map String.mk

/-! ## Data model

Mirrors the values flowing through `Teeth3DS.process_file`. -/

/-- A 3-component coordinate (mesh vertex, normal, or landmark point). -/
abbrev Vec3 := Int × Int × Int

/-- The mesh as returned by `trimesh.load_mesh` (after the select-first
step for multi-geometry loads): per-vertex positions and normals. -/
structure Mesh where
  vertices : List Vec3
  vertexNormals : List Vec3
  deriving DecidableEq

/-- Parsed contents of a sibling segmentation file (`*.json`): two
per-original-vertex arrays `labels` and `instances`. -/
structure SegAnnotations where
  labels : List Int
  instances : List Int
  deriving DecidableEq

/-- One entry of the keypoint file: a class tag and a flat coordinate
list (normally 3 components). -/
structure Keypoint where
  className : String
  coord : List Int
  deriving DecidableEq

/-- Parsed contents of a sibling keypoint file (`*__kpt.json`). -/
structure LandmarksAnnotations where
  objects : List Keypoint
  deriving DecidableEq

/-- What the file system provides for one mesh path: the loaded mesh and
the optionally present sibling annotation files (`none` = file absent). -/
structure FileEnv where
  mesh : Mesh
  segAnnotations : Option SegAnnotations
  landmarksAnnotations : Option LandmarksAnnotations
  deriving DecidableEq

/-- The two external sampling routines, as oracles returning index lists:
`randChoice n k` models `np.random.choice(n, k, replace=True)` and
`fps verts k` models `bucket_fps_kdline_sampling(verts, k, h=5, start_idx=0)`. -/
structure Samplers where
  randChoice : Nat → Nat → List Nat
  fps : List Vec3 → Nat → List Nat

/-- Contract of `np.random.choice(n, k, replace=True)` for `n > 0`:
exactly `k` indices, each a valid vertex index. -/
def RandChoiceSpec (rc : Nat → Nat → List Nat) : Prop :=
  ∀ n k, 0 < n → (rc n k).length = k ∧ ∀ i ∈ rc n k, i < n

/-- Contract of `bucket_fps_kdline_sampling` for `k ≤ len(verts)`:
exactly `k` pairwise-distinct valid indices (sampling without
replacement). -/
def FpsSpec (fps : List Vec3 → Nat → List Nat) : Prop :=
  ∀ verts k, k ≤ verts.length →
    (fps verts k).length = k ∧ (fps verts k).Nodup ∧
      ∀ i ∈ fps verts k, i < verts.length

/-- The record built by `process_file` (the `Data(...)` constructor call):
positions, normals, segmentation labels, instance labels, the jaw token
and the six landmark groups. -/
structure Data where
  pos : List Vec3
  x : List Vec3
  y : List Int
  instances : List Int
  jaw : String
  mesial : List Vec3
  distal : List Vec3
  cusp : List Vec3
  inner_point : List Vec3
  outer_point : List Vec3
  facial_point : List Vec3
  deriving DecidableEq

/-- Failure modes of `process_file`: the `assert` on the sampled count
(which carries the file path in its message), NumPy fancy-indexing errors,
`KeyError` on an unknown keypoint class tag, reshape failures, and the
`IndexError` of `split('_')[1]`. -/
inductive ProcError where
  | sampleMismatch (filePath : String) (expected got : Nat)
  | indexError
  | keyError (tag : String)
  | reshapeError
  | jawIndexError
  deriving DecidableEq

/-! ## process_file, stage by stage -/

/-- NumPy fancy indexing `xs[idxs]`: all indices must be in range,
otherwise the whole operation fails. -/
def gather (xs : List α) : List Nat → Option (List α)
  | [] => some []
  | i :: rest => xs[i]?.bind fun v => (gather xs rest).map fun t => v :: t

/-- `gather` lifted into the error monad. -/
def gatherE (xs : List α) (idxs : List Nat) : Except ProcError (List α) :=
  match gather xs idxs with
  | some ys => Except.ok ys
  | none => Except.error ProcError.indexError

/-- The index list produced by the sampling branch of `process_file`:
`np.random.choice` with replacement when the mesh is smaller than
`n_sample`, the farthest-point sampler otherwise. -/
def sampleIndices (n_sample : Nat) (s : Samplers) (verts : List Vec3) : List Nat :=
  if verts.length < n_sample then s.randChoice verts.length n_sample
  else s.fps verts n_sample

/-- Sampling plus the `assert len(sampled_indices) == self.n_sample`
guard, whose message names the offending file path. -/
def sampleStage (n_sample : Nat) (s : Samplers) (filePath : String)
    (verts : List Vec3) : Except ProcError (List Nat) :=
  let idxs := sampleIndices n_sample s verts
  if idxs.length = n_sample then Except.ok idxs
  else Except.error (ProcError.sampleMismatch filePath n_sample idxs.length)

/-- Segmentation alignment: if the sibling `.json` exists, re-index
`labels` and `instances` by the sampled indices; otherwise both outputs
are empty (`torch.empty(0, 3)`). -/
def segStage (seg : Option SegAnnotations) (idxs : List Nat) :
    Except ProcError (List Int × List Int) :=
  match seg with
  | none => Except.ok ([], [])
  | some ann =>
    match gatherE ann.labels idxs with
    | Except.error e => Except.error e
    | Except.ok y =>
      match gatherE ann.instances idxs with
      | Except.error e => Except.error e
      | Except.ok inst => Except.ok (y, inst)

/-- The `keypoints_dict` accumulator: one flat coordinate list per
recognized class tag. -/
structure KeypointsDict where
  mesial : List Int
  distal : List Int
  cusp : List Int
  innerPoint : List Int
  outerPoint : List Int
  facialPoint : List Int
  deriving DecidableEq

/-- `{key: [] for key in [...]}`. -/
def emptyKeypointsDict : KeypointsDict := ⟨[], [], [], [], [], []⟩

/-- `keypoints_dict[keypoint["class"]].extend(keypoint["coord"])`:
appends the flat coordinates to the group named by the tag, or raises
`KeyError` when the tag is not one of the six dictionary keys. -/
def dictExtend (d : KeypointsDict) (kp : Keypoint) : Except ProcError KeypointsDict :=
  if kp.className = "Mesial" then
    Except.ok { d with mesial := d.mesial ++ kp.coord }
  else if kp.className = "Distal" then
    Except.ok { d with distal := d.distal ++ kp.coord }
  else if kp.className = "Cusp" then
    Except.ok { d with cusp := d.cusp ++ kp.coord }
  else if kp.className = "InnerPoint" then
    Except.ok { d with innerPoint := d.innerPoint ++ kp.coord }
  else if kp.className = "OuterPoint" then
    Except.ok { d with outerPoint := d.outerPoint ++ kp.coord }
  else if kp.className = "FacialPoint" then
    Except.ok { d with facialPoint := d.facialPoint ++ kp.coord }
  else Except.error (ProcError.keyError kp.className)

/-- The `for keypoint in landmarks_annotations['objects']` loop. -/
def buildDict (objs : List Keypoint) (d : KeypointsDict) :
    Except ProcError KeypointsDict :=
  match objs with
  | [] => Except.ok d
  | kp :: rest =>
    match dictExtend d kp with
    | Except.ok d2 => buildDict rest d2
    | Except.error e => Except.error e

/-- NumPy `reshape(-1, 3)` of a flat list: groups of three, failing when
the length is not a multiple of 3. -/
def reshape3 : List Int → Option (List Vec3)
  | [] => some []
  | a :: b :: c :: rest =>
    match reshape3 rest with
    | some t => some ((a, b, c) :: t)
    | none => none
  | _ => none

/-- `reshape3` lifted into the error monad. -/
def reshapeE (xs : List Int) : Except ProcError (List Vec3) :=
  match reshape3 xs with
  | some ys => Except.ok ys
  | none => Except.error ProcError.reshapeError

/-- The six landmark group tensors (`keypoint_tensors`), each of shape
`(k, 3)`. -/
structure KeypointTensors where
  mesial : List Vec3
  distal : List Vec3
  cusp : List Vec3
  inner_point : List Vec3
  outer_point : List Vec3
  facial_point : List Vec3
  deriving DecidableEq

/-- Landmark parsing: all six groups start empty (`torch.empty(0, 3)`);
if the sibling `*__kpt.json` exists, the objects are grouped by class tag
and each flat group is reshaped to `(k, 3)`. -/
def landmarksStage (lm : Option LandmarksAnnotations) :
    Except ProcError KeypointTensors :=
  match lm with
  | none => Except.ok ⟨[], [], [], [], [], []⟩
  | some ann =>
    match buildDict ann.objects emptyKeypointsDict with
    | Except.error e => Except.error e
    | Except.ok d =>
      match reshapeE d.mesial, reshapeE d.distal, reshapeE d.cusp,
          reshapeE d.innerPoint, reshapeE d.outerPoint, reshapeE d.facialPoint with
      | Except.ok m, Except.ok di, Except.ok c, Except.ok ip, Except.ok op,
          Except.ok fp => Except.ok ⟨m, di, c, ip, op, fp⟩
      | Except.error e, _, _, _, _, _ => Except.error e
      | _, Except.error e, _, _, _, _ => Except.error e
      | _, _, Except.error e, _, _, _ => Except.error e
      | _, _, _, Except.error e, _, _ => Except.error e
      | _, _, _, _, Except.error e, _ => Except.error e
      | _, _, _, _, _, Except.error e => Except.error e

/-- `file_path.split('.obj')[0].split('_')[1]`, computed on the full
path.  `split` always returns at least one piece, so `[0]` is total;
`[1]` raises `IndexError` when the part before `.obj` has no underscore. -/
def jawOf (filePath : String) : Option String :=
  ((pySplit ((pySplit filePath ".obj").headD "") "_").get? 1)

/-- Jaw extraction lifted into the error monad. -/
def jawStage (filePath : String) : Except ProcError String :=
  match jawOf filePath with
  | some j => Except.ok j
  | none => Except.error ProcError.jawIndexError

/-- `data = self.pre_transform(data)` when a transform is configured. -/
def applyTransform (pt : Option (Data → Data)) (d : Data) : Data :=
  match pt with
  | some f => f d
  | none => d

/-- `Teeth3DS.process_file`: sampling with the count assertion, gathering
positions and normals at the sampled indices, segmentation alignment,
landmark grouping, jaw extraction, record construction, then the
`pre_filter` (returning `none` on rejection) and `pre_transform` hooks. -/
def processFile (n_sample : Nat) (preFilter : Option (Data → Bool))
    (preTransform : Option (Data → Data)) (s : Samplers)
    (env : FileEnv) (filePath : String) : Except ProcError (Option Data) :=
  match sampleStage n_sample s filePath env.mesh.vertices with
  | Except.error e => Except.error e
  | Except.ok sampled_indices =>
    match gatherE env.mesh.vertices sampled_indices with
    | Except.error e => Except.error e
    | Except.ok pos =>
      match gatherE env.mesh.vertexNormals sampled_indices with
      | Except.error e => Except.error e
      | Except.ok x =>
        match segStage env.segAnnotations sampled_indices with
        | Except.error e => Except.error e
        | Except.ok (y, instances) =>
          match landmarksStage env.landmarksAnnotations with
          | Except.error e => Except.error e
          | Except.ok kt =>
            match jawStage filePath with
            | Except.error e => Except.error e
            | Except.ok jaw =>
              let data : Data :=
                { pos := pos, x := x, y := y, instances := instances,
                  jaw := jaw, mesial := kt.mesial, distal := kt.distal,
                  cusp := kt.cusp, inner_point := kt.inner_point,
                  outer_point := kt.outer_point,
                  facial_point := kt.facial_point }
              match preFilter with
              | some pf =>
                if pf data then Except.ok (some (applyTransform preTransform data))
                else Except.ok none
              | none => Except.ok (some (applyTransform preTransform data))

/-! ## The driver: processed_file_names, process, len -/

/-- `Teeth3DS.processed_file_names`: the split files' lines are
concatenated in order (`combined_list.extend(...)`, no deduplication) and
each identifier is suffixed with `.pt`.  The input is the list of split
files, each given as its list of lines. -/
def processedFileNames (splitFilesLines : List (List String)) : List String :=
  (splitFilesLines.foldl (fun acc lines => acc ++ lines) []).map
    (fun file_name => file_name ++ ".pt")

/-- `Teeth3DS.len`: the length of `processed_file_names`. -/
def datasetLen (splitFilesLines : List (List String)) : Nat :=
  (processedFileNames splitFilesLines).length

/-- What the driver's environment provides: `resolve` models the
`glob(raw_dir + '/**/*/*' + file_name + '.obj')` lookup, and `fsAt`
the file contents at a resolved path. -/
structure DriverEnv where
  resolve : String → List String
  fsAt : String → FileEnv

/-- `file_path[0]` on a resolved candidate list (only reached when the
list has exactly one element). -/
def elem0 (l : List String) : String :=
  match l with
  | [] => ""
  | p :: _ => p

/-- `Teeth3DS.process`: for each manifest entry, resolve the mesh path;
when exactly one candidate exists, run `process_file` and save its result
(even a `None`) under the entry's `.pt` key; otherwise skip silently.  An
exception in `process_file` propagates and aborts the loop.  The result
is the list of cache entries written, in order. -/
def processAll (n_sample : Nat) (preFilter : Option (Data → Bool))
    (preTransform : Option (Data → Data)) (s : Samplers) (denv : DriverEnv) :
    List String → Except ProcError (List (String × Option Data))
  | [] => Except.ok []
  | file :: rest =>
    let file_name := (pySplit file ".").headD ""
    let file_path := denv.resolve file_name
    if file_path.length = 1 then
      match processFile n_sample preFilter preTransform s
          (denv.fsAt (elem0 file_path)) (elem0 file_path) with
      | Except.error e => Except.error e
      | Except.ok data =>
        match processAll n_sample preFilter preTransform s denv rest with
        | Except.error e => Except.error e
        | Except.ok store => Except.ok ((file, data) :: store)
    else
      processAll n_sample preFilter preTransform s denv rest

/-! ## Supporting lemmas -/

theorem gather_length {α : Type} (xs : List α) :
    ∀ (idxs : List Nat) (ys : List α),
      gather xs idxs = some ys → ys.length = idxs.length := by
  intro idxs
  induction idxs with
  | nil =>
    intro ys h
    simp only [gather, Option.some_inj] at h
    subst h
    rfl
  | cons i rest ih =>
    intro ys h
    simp only [gather, Option.bind_eq_some, Option.map_eq_some'] at h
    obtain ⟨v, _, t, hg, hys⟩ := h
    simp [← hys, ih t hg]

theorem gather_mem {α : Type} (xs : List α) :
    ∀ (idxs : List Nat) (ys : List α),
      gather xs idxs = some ys → ∀ y ∈ ys, y ∈ xs := by
  intro idxs
  induction idxs with
  | nil =>
    intro ys h
    simp only [gather, Option.some_inj] at h
    subst h
    intro y hy
    simp at hy
  | cons i rest ih =>
    intro ys h
    simp only [gather, Option.bind_eq_some, Option.map_eq_some'] at h
    obtain ⟨v, hv, t, hg, hys⟩ := h
    intro y hy
    rw [← hys] at hy
    rcases List.mem_cons.mp hy with h1 | h2
    · subst h1
      exact List.getElem?_mem hv
    · exact ih t hg y h2

theorem gather_getElem? {α : Type} (xs : List α) :
    ∀ (idxs : List Nat) (ys : List α),
      gather xs idxs = some ys →
        ∀ (i j : Nat), idxs[i]? = some j → ys[i]? = xs[j]? := by
  intro idxs
  induction idxs with
  | nil => intro ys h i j hij; simp at hij
  | cons a rest ih =>
    intro ys h i j hij
    simp only [gather, Option.bind_eq_some, Option.map_eq_some'] at h
    obtain ⟨v, hv, t, hg, hys⟩ := h
    cases i with
    | zero =>
      simp only [List.getElem?_cons_zero, Option.some_inj] at hij
      subst hij
      simp [← hys, ← hv]
    | succ i' =>
      simp only [List.getElem?_cons_succ] at hij
      rw [← hys]
      simpa using ih t hg i' j hij

/-- The record literal built at the end of `process_file`, as a function
of the stage outputs. -/
def mkRecord (pos x : List Vec3) (y inst : List Int) (jaw : String)
    (kt : KeypointTensors) : Data :=
  ⟨pos, x, y, inst, jaw, kt.mesial, kt.distal, kt.cusp, kt.inner_point,
    kt.outer_point, kt.facial_point⟩

theorem processFile_ok_elim {n : Nat} {pfil : Option (Data → Bool)}
    {ptr : Option (Data → Data)} {s : Samplers} {env : FileEnv} {p : String}
    {r : Option Data} (h : processFile n pfil ptr s env p = Except.ok r) :
    ∃ idxs pos x y inst kt jaw,
      sampleStage n s p env.mesh.vertices = Except.ok idxs ∧
      gatherE env.mesh.vertices idxs = Except.ok pos ∧
      gatherE env.mesh.vertexNormals idxs = Except.ok x ∧
      segStage env.segAnnotations idxs = Except.ok (y, inst) ∧
      landmarksStage env.landmarksAnnotations = Except.ok kt ∧
      jawStage p = Except.ok jaw ∧
      (r = none ∨ r = some (applyTransform ptr (mkRecord pos x y inst jaw kt))) := by
  cases hs : sampleStage n s p env.mesh.vertices with
  | error e => simp [processFile, hs] at h
  | ok idxs =>
  cases hp : gatherE env.mesh.vertices idxs with
  | error e => simp [processFile, hs, hp] at h
  | ok pos =>
  cases hx : gatherE env.mesh.vertexNormals idxs with
  | error e => simp [processFile, hs, hp, hx] at h
  | ok x =>
  cases hy : segStage env.segAnnotations idxs with
  | error e => simp [processFile, hs, hp, hx, hy] at h
  | ok yi =>
  obtain ⟨y, inst⟩ := yi
  cases hl : landmarksStage env.landmarksAnnotations with
  | error e => simp [processFile, hs, hp, hx, hy, hl] at h
  | ok kt =>
  cases hj : jawStage p with
  | error e => simp [processFile, hs, hp, hx, hy, hl, hj] at h
  | ok jaw =>
  cases hf : pfil with
  | none =>
    simp only [processFile, hs, hp, hx, hy, hl, hj, hf, Except.ok.injEq] at h
    exact ⟨idxs, pos, x, y, inst, kt, jaw, rfl, hp, hx, hy, rfl, rfl, Or.inr h.symm⟩
  | some pf =>
    cases hpf : pf (mkRecord pos x y inst jaw kt) with
    | true =>
      simp only [mkRecord] at hpf
      simp only [processFile, hs, hp, hx, hy, hl, hj, hf, hpf, if_true,
        Except.ok.injEq] at h
      exact ⟨idxs, pos, x, y, inst, kt, jaw, rfl, hp, hx, hy, rfl, rfl, Or.inr h.symm⟩
    | false =>
      simp only [mkRecord] at hpf
      simp only [processFile, hs, hp, hx, hy, hl, hj, hf, hpf,
        Bool.false_eq_true, if_false, Except.ok.injEq] at h
      exact ⟨idxs, pos, x, y, inst, kt, jaw, rfl, hp, hx, hy, rfl, rfl, Or.inl h.symm⟩

theorem processFile_eq_of_stages {n : Nat} {pfil : Option (Data → Bool)}
    {ptr : Option (Data → Data)} {s : Samplers} {env : FileEnv} {p : String}
    {idxs : List Nat} {pos x : List Vec3} {y inst : List Int}
    {kt : KeypointTensors} {jaw : String}
    (hs : sampleStage n s p env.mesh.vertices = Except.ok idxs)
    (hp : gatherE env.mesh.vertices idxs = Except.ok pos)
    (hx : gatherE env.mesh.vertexNormals idxs = Except.ok x)
    (hy : segStage env.segAnnotations idxs = Except.ok (y, inst))
    (hl : landmarksStage env.landmarksAnnotations = Except.ok kt)
    (hj : jawStage p = Except.ok jaw) :
    processFile n pfil ptr s env p =
      match pfil with
      | some pf =>
        if pf (mkRecord pos x y inst jaw kt) then
          Except.ok (some (applyTransform ptr (mkRecord pos x y inst jaw kt)))
        else Except.ok none
      | none =>
        Except.ok (some (applyTransform ptr (mkRecord pos x y inst jaw kt))) := by
  simp only [processFile, hs, hp, hx, hy, hl, hj]
  rfl

theorem processFile_landmarks_error {n : Nat} {pfil : Option (Data → Bool)}
    {ptr : Option (Data → Data)} {s : Samplers} {env : FileEnv} {p : String}
    {idxs : List Nat} {pos x : List Vec3} {y inst : List Int} {e : ProcError}
    (hs : sampleStage n s p env.mesh.vertices = Except.ok idxs)
    (hp : gatherE env.mesh.vertices idxs = Except.ok pos)
    (hx : gatherE env.mesh.vertexNormals idxs = Except.ok x)
    (hy : segStage env.segAnnotations idxs = Except.ok (y, inst))
    (hl : landmarksStage env.landmarksAnnotations = Except.error e) :
    processFile n pfil ptr s env p = Except.error e := by
  simp only [processFile, hs, hp, hx, hy, hl]

/-- The six dictionary keys of `keypoints_dict`. -/
def recognizedTags : List String :=
  ["Mesial", "Distal", "Cusp", "InnerPoint", "OuterPoint", "FacialPoint"]

/-- The 3-vector held by a keypoint entry (for entries whose `coord` has
exactly three components). -/
def coordVec (kp : Keypoint) : Vec3 :=
  match kp.coord with
  | [a, b, c] => (a, b, c)
  | _ => (0, 0, 0)

/-- The flat coordinate list accumulated for one tag, in file order. -/
def flatTag (tag : String) (objs : List Keypoint) : List Int :=
  ((objs.filter (fun kp => kp.className = tag)).map Keypoint.coord).flatten

/-- The grouping described by the spec: the coordinates of the entries
carrying `tag`, in file order, one 3-vector per entry. -/
def specGroup (tag : String) (objs : List Keypoint) : List Vec3 :=
  (objs.filter (fun kp => kp.className = tag)).map coordVec

theorem buildDict_ok :
    ∀ (objs : List Keypoint) (d : KeypointsDict),
      (∀ kp ∈ objs, kp.className ∈ recognizedTags) →
      buildDict objs d = Except.ok
        ⟨d.mesial ++ flatTag "Mesial" objs, d.distal ++ flatTag "Distal" objs,
          d.cusp ++ flatTag "Cusp" objs,
          d.innerPoint ++ flatTag "InnerPoint" objs,
          d.outerPoint ++ flatTag "OuterPoint" objs,
          d.facialPoint ++ flatTag "FacialPoint" objs⟩ := by
  intro objs
  induction objs with
  | nil => intro d _; simp [buildDict, flatTag]
  | cons kp rest ih =>
    intro d hrec
    have hkp := hrec kp (List.mem_cons_self kp rest)
    have hrest : ∀ k ∈ rest, k.className ∈ recognizedTags :=
      fun k hk => hrec k (List.mem_cons_of_mem kp hk)
    simp only [recognizedTags, List.mem_cons, List.not_mem_nil, or_false] at hkp
    rcases hkp with h1 | h1 | h1 | h1 | h1 | h1 <;>
      simp [buildDict, dictExtend, h1, ih _ hrest, flatTag, List.filter_cons,
        List.append_assoc]

theorem buildDict_keyError :
    ∀ (objs : List Keypoint) (d : KeypointsDict),
      (∃ kp ∈ objs, kp.className ∉ recognizedTags) →
      ∃ tag, tag ∉ recognizedTags ∧
        buildDict objs d = Except.error (ProcError.keyError tag) := by
  intro objs
  induction objs with
  | nil => intro d h; simp at h
  | cons kp rest ih =>
    intro d h
    by_cases hkp : kp.className ∈ recognizedTags
    · obtain ⟨kp2, hmem, hbad⟩ := h
      have hrest : ∃ k ∈ rest, k.className ∉ recognizedTags := by
        rcases List.mem_cons.mp hmem with he | hm
        · exact absurd (he ▸ hkp) hbad
        · exact ⟨kp2, hm, hbad⟩
      have hext : ∃ d2, dictExtend d kp = Except.ok d2 := by
        simp only [recognizedTags, List.mem_cons, List.not_mem_nil,
          or_false] at hkp
        rcases hkp with h1 | h1 | h1 | h1 | h1 | h1 <;> simp [dictExtend, h1]
      obtain ⟨d2, hd2⟩ := hext
      obtain ⟨tag, ht, hb⟩ := ih d2 hrest
      exact ⟨tag, ht, by simp [buildDict, hd2, hb]⟩
    · refine ⟨kp.className, hkp, ?_⟩
      have herr : dictExtend d kp =
          Except.error (ProcError.keyError kp.className) := by
        simp only [recognizedTags, List.mem_cons, List.not_mem_nil, or_false,
          not_or] at hkp
        obtain ⟨h1, h2, h3, h4, h5, h6⟩ := hkp
        simp [dictExtend, h1, h2, h3, h4, h5, h6]
      simp [buildDict, herr]

theorem reshape3_flat :
    ∀ (l : List Keypoint), (∀ kp ∈ l, kp.coord.length = 3) →
      reshape3 (l.map Keypoint.coord).flatten = some (l.map coordVec) := by
  intro l
  induction l with
  | nil => intro _; simp [reshape3]
  | cons kp rest ih =>
    intro h
    obtain ⟨a, b, c, habc⟩ :=
      List.length_eq_three.mp (h kp (List.mem_cons_self kp rest))
    have hrest : ∀ k ∈ rest, k.coord.length = 3 :=
      fun k hk => h k (List.mem_cons_of_mem kp hk)
    simp only [List.map_cons, List.flatten_cons, habc, List.cons_append]
    simp [reshape3, ih hrest, coordVec, habc]

theorem reshapeE_flatTag (tag : String) (objs : List Keypoint)
    (h : ∀ kp ∈ objs, kp.coord.length = 3) :
    reshapeE (flatTag tag objs) = Except.ok (specGroup tag objs) := by
  have hf : ∀ kp ∈ objs.filter (fun kp => kp.className = tag),
      kp.coord.length = 3 :=
    fun kp hk => h kp (List.mem_of_mem_filter hk)
  simp [flatTag, reshapeE, specGroup, reshape3_flat _ hf]

theorem landmarksStage_of_recognized (objs : List Keypoint)
    (hrec : ∀ kp ∈ objs, kp.className ∈ recognizedTags)
    (hlen : ∀ kp ∈ objs, kp.coord.length = 3) :
    landmarksStage (some ⟨objs⟩) = Except.ok
      ⟨specGroup "Mesial" objs, specGroup "Distal" objs,
        specGroup "Cusp" objs, specGroup "InnerPoint" objs,
        specGroup "OuterPoint" objs, specGroup "FacialPoint" objs⟩ := by
  have hb := buildDict_ok objs emptyKeypointsDict hrec
  simp only [emptyKeypointsDict, List.nil_append] at hb
  simp [landmarksStage, emptyKeypointsDict, hb, reshapeE_flatTag "Mesial" objs hlen,
    reshapeE_flatTag "Distal" objs hlen, reshapeE_flatTag "Cusp" objs hlen,
    reshapeE_flatTag "InnerPoint" objs hlen,
    reshapeE_flatTag "OuterPoint" objs hlen,
    reshapeE_flatTag "FacialPoint" objs hlen]

theorem foldl_append_eq_flatten :
    ∀ (l : List (List String)) (acc : List String),
      l.foldl (fun a b => a ++ b) acc = acc ++ l.flatten := by
  intro l
  induction l with
  | nil => intro acc; simp
  | cons x rest ih => intro acc; simp [List.foldl_cons, ih, List.append_assoc]

theorem processedFileNames_eq (sf : List (List String)) :
    processedFileNames sf =
      sf.flatten.map (fun file_name => file_name ++ ".pt") := by
  simp [processedFileNames, foldl_append_eq_flatten]

theorem processAll_ok_keys (n : Nat) (pfil : Option (Data → Bool))
    (ptr : Option (Data → Data)) (s : Samplers) (denv : DriverEnv) :
    ∀ (files : List String) (store : List (String × Option Data)),
      processAll n pfil ptr s denv files = Except.ok store →
      ∀ e ∈ store, e.1 ∈ files ∧
        (denv.resolve ((pySplit e.1 ".").headD "")).length = 1 := by
  intro files
  induction files with
  | nil =>
    intro store h e he
    simp only [processAll, Except.ok.injEq] at h
    subst h
    simp at he
  | cons file rest ih =>
    intro store h e he
    simp only [processAll] at h
    by_cases hc : (denv.resolve ((pySplit file ".").headD "")).length = 1
    · rw [if_pos hc] at h
      cases hpf : processFile n pfil ptr s
          (denv.fsAt (elem0 (denv.resolve ((pySplit file ".").headD ""))))
          (elem0 (denv.resolve ((pySplit file ".").headD ""))) with
      | error err =>
        simp only [hpf] at h
        exact Except.noConfusion h
      | ok data =>
        cases hrest : processAll n pfil ptr s denv rest with
        | error err =>
          simp only [hpf, hrest] at h
          exact Except.noConfusion h
        | ok store2 =>
          simp only [hpf, hrest, Except.ok.injEq] at h
          subst h
          rcases List.mem_cons.mp he with he1 | he2
          · subst he1
            exact ⟨List.mem_cons_self file rest, hc⟩
          · obtain ⟨hm, hr⟩ := ih store2 hrest e he2
            exact ⟨List.mem_cons_of_mem file hm, hr⟩
    · rw [if_neg hc] at h
      obtain ⟨hm, hr⟩ := ih store h e he
      exact ⟨List.mem_cons_of_mem file hm, hr⟩

theorem processAll_length_le (n : Nat) (pfil : Option (Data → Bool))
    (ptr : Option (Data → Data)) (s : Samplers) (denv : DriverEnv) :
    ∀ (files : List String) (store : List (String × Option Data)),
      processAll n pfil ptr s denv files = Except.ok store →
      store.length ≤ files.length := by
  intro files
  induction files with
  | nil =>
    intro store h
    simp only [processAll, Except.ok.injEq] at h
    subst h
    simp
  | cons file rest ih =>
    intro store h
    simp only [processAll] at h
    by_cases hc : (denv.resolve ((pySplit file ".").headD "")).length = 1
    · rw [if_pos hc] at h
      cases hpf : processFile n pfil ptr s
          (denv.fsAt (elem0 (denv.resolve ((pySplit file ".").headD ""))))
          (elem0 (denv.resolve ((pySplit file ".").headD ""))) with
      | error err =>
        simp only [hpf] at h
        exact Except.noConfusion h
      | ok data =>
        cases hrest : processAll n pfil ptr s denv rest with
        | error err =>
          simp only [hpf, hrest] at h
          exact Except.noConfusion h
        | ok store2 =>
          simp only [hpf, hrest, Except.ok.injEq] at h
          subst h
          simpa using Nat.succ_le_succ (ih store2 hrest)
    · rw [if_neg hc] at h
      exact Nat.le_succ_of_le (ih store h)

theorem jawStage_ok_iff (p j : String) :
    jawStage p = Except.ok j ↔ jawOf p = some j := by
  cases h : jawOf p <;> simp [jawStage, h]

/-! ## Concrete instances used by the witnesses -/

/-- Deterministic stand-ins for the two external samplers: `randChoice`
always picks index 0 (with replacement), `fps` returns the first `k`
indices. -/
def demoSamplers : Samplers :=
  ⟨fun _ k => List.replicate k 0, fun _ k => List.range k⟩

theorem demoSamplers_fps_spec : FpsSpec demoSamplers.fps := by
  intro verts k hk
  refine ⟨List.length_range k, List.nodup_range k, ?_⟩
  intro i hi
  exact lt_of_lt_of_le (List.mem_range.mp hi) hk

/-- A sampler pair whose farthest-point component violates its contract
(returns no indices at all). -/
def badSamplers : Samplers :=
  ⟨fun _ k => List.replicate k 0, fun _ _ => []⟩

def demoMesh : Mesh :=
  ⟨[(0, 0, 0), (1, 0, 0), (2, 0, 0)], [(0, 0, 1), (0, 1, 0), (1, 0, 0)]⟩

def demoEnvPlain : FileEnv := ⟨demoMesh, none, none⟩

def demoSeg : SegAnnotations := ⟨[10, 11, 12], [1, 2, 3]⟩

def demoEnvSeg : FileEnv := ⟨demoMesh, some demoSeg, none⟩

/-- The record `process_file` builds from `demoEnvPlain` with
`n_sample = 2` and path `"a_upper_s.obj"`. -/
def demoRecord : Data :=
  ⟨[(0, 0, 0), (1, 0, 0)], [(0, 0, 1), (0, 1, 0)], [], [], "upper",
    [], [], [], [], [], []⟩

/-- The record `process_file` builds from `demoEnvSeg` with
`n_sample = 2` and path `"a_upper_s.obj"`. -/
def demoRecordSeg : Data :=
  ⟨[(0, 0, 0), (1, 0, 0)], [(0, 0, 1), (0, 1, 0)], [10, 11], [1, 2], "upper",
    [], [], [], [], [], []⟩

/-- A driver environment resolving every identifier to the single path
`"a_upper_s.obj"`, whose contents are `demoEnvPlain`. -/
def demoDriverEnv : DriverEnv :=
  ⟨fun _ => ["a_upper_s.obj"], fun _ => demoEnvPlain⟩

/-- A driver environment in which no identifier resolves to any path. -/
def demoDriverEnvEmpty : DriverEnv :=
  ⟨fun _ => [], fun _ => demoEnvPlain⟩


theorem sampleStage_ok_elim {n : Nat} {s : Samplers} {p : String}
    {verts : List Vec3} {idxs : List Nat}
    (h : sampleStage n s p verts = Except.ok idxs) :
    idxs = sampleIndices n s verts ∧ idxs.length = n := by
  simp only [sampleStage] at h
  by_cases hc : (sampleIndices n s verts).length = n
  · rw [if_pos hc] at h
    cases h
    exact ⟨rfl, hc⟩
  · rw [if_neg hc] at h
    exact Except.noConfusion h

theorem gatherE_ok_elim {α : Type} {xs : List α} {idxs : List Nat}
    {ys : List α} (h : gatherE xs idxs = Except.ok ys) :
    gather xs idxs = some ys := by
  simp only [gatherE] at h
  cases hg : gather xs idxs with
  | none => simp only [hg] at h; exact Except.noConfusion h
  | some t => simp only [hg] at h; cases h; rfl

theorem segStage_some_elim {ann : SegAnnotations} {idxs : List Nat}
    {y inst : List Int}
    (h : segStage (some ann) idxs = Except.ok (y, inst)) :
    gather ann.labels idxs = some y ∧ gather ann.instances idxs = some inst := by
  simp only [segStage] at h
  cases hy : gatherE ann.labels idxs with
  | error e => simp only [hy] at h; exact Except.noConfusion h
  | ok y2 =>
    cases hi : gatherE ann.instances idxs with
    | error e => simp only [hy, hi] at h; exact Except.noConfusion h
    | ok i2 =>
      simp only [hy, hi, Except.ok.injEq, Prod.mk.injEq] at h
      obtain ⟨h1, h2⟩ := h
      subst h1
      subst h2
      exact ⟨gatherE_ok_elim hy, gatherE_ok_elim hi⟩

theorem processFile_with_filter (pf : Data → Bool)
    (ptr : Option (Data → Data)) {n : Nat} {s : Samplers} {env : FileEnv}
    {p : String} {d : Data}
    (h : processFile n none none s env p = Except.ok (some d)) :
    processFile n (some pf) ptr s env p =
      if pf d then Except.ok (some (applyTransform ptr d))
      else Except.ok none := by
  obtain ⟨idxs, pos, x, y, inst, kt, jaw, hs, hp, hx, hy, hl, hj, hr⟩ :=
    processFile_ok_elim h
  rcases hr with hr | hr
  · exact Option.noConfusion hr
  · have hd : d = mkRecord pos x y inst jaw kt := by
      simpa [applyTransform] using hr
    have heq := @processFile_eq_of_stages n (some pf) ptr s env p idxs pos x y
      inst kt jaw hs hp hx hy hl hj
    rw [heq, ← hd]

/-! ## Claims -/

/-- **C1.** For every mesh file that `process_file` completes on (no
`pre_transform` configured, since a transform is an arbitrary external
function applied after construction), the returned record's positions and
normals both have length exactly `n_sample`.  When the mesh has fewer
vertices than `n_sample`, the positions are the vertices gathered at the
indices returned by `np.random.choice( . , . , replace=True)`, so every
returned point is some original vertex (duplicates allowed); otherwise
they are the vertices gathered at the indices chosen by the
farthest-point sampler, which — by that sampler's contract `FpsSpec` —
are exactly `n_sample` pairwise-distinct indices (chosen without
replacement). -/
theorem C1_sample_shape (n : Nat) (pfil : Option (Data → Bool))
    (s : Samplers) (env : FileEnv) (p : String) (d : Data)
    (hfps : FpsSpec s.fps)
    (h : processFile n pfil none s env p = Except.ok (some d)) :
    d.pos.length = n ∧ d.x.length = n ∧
      (env.mesh.vertices.length < n →
        gather env.mesh.vertices (s.randChoice env.mesh.vertices.length n) =
            some d.pos ∧
          ∀ q ∈ d.pos, q ∈ env.mesh.vertices) ∧
      (¬ env.mesh.vertices.length < n →
        (s.fps env.mesh.vertices n).length = n ∧
          (s.fps env.mesh.vertices n).Nodup ∧
          gather env.mesh.vertices (s.fps env.mesh.vertices n) = some d.pos) := by
  obtain ⟨idxs, pos, x, y, inst, kt, jaw, hs, hp, hx, hy, hl, hj, hr⟩ :=
    processFile_ok_elim h
  rcases hr with hr | hr
  · exact Option.noConfusion hr
  · have hd : d = mkRecord pos x y inst jaw kt := by
      simpa [applyTransform] using hr
    obtain ⟨hidx, hlen⟩ := sampleStage_ok_elim hs
    have hpos := gatherE_ok_elim hp
    have hxg := gatherE_ok_elim hx
    have hdpos : d.pos = pos := by simp [hd, mkRecord]
    have hdx : d.x = x := by simp [hd, mkRecord]
    refine ⟨?_, ?_, ?_, ?_⟩
    · rw [hdpos, gather_length env.mesh.vertices idxs pos hpos, ← hidx] at *
      exact hlen
    · rw [hdx, gather_length env.mesh.vertexNormals idxs x hxg, ← hidx] at *
      exact hlen
    · intro hlt
      have hsi : sampleIndices n s env.mesh.vertices =
          s.randChoice env.mesh.vertices.length n := by
        simp [sampleIndices, hlt]
      rw [hdpos, ← hsi, ← hidx]
      exact ⟨hpos, gather_mem env.mesh.vertices idxs pos hpos⟩
    · intro hge
      have hsi : sampleIndices n s env.mesh.vertices =
          s.fps env.mesh.vertices n := by
        simp [sampleIndices, hge]
      have hkle : n ≤ env.mesh.vertices.length := Nat.le_of_not_lt hge
      obtain ⟨hf1, hf2, _⟩ := hfps env.mesh.vertices n hkle
      rw [hdpos, ← hsi, ← hidx]
      exact ⟨hlen, by rw [hidx, hsi]; exact hf2, hpos⟩

/-- Witness for `C1_sample_shape`: the hypotheses hold and the conclusion
is checked at `n_sample = 2` on a 3-vertex mesh. -/
theorem C1_sample_shape_witness :
    FpsSpec demoSamplers.fps ∧
    processFile 2 none none demoSamplers demoEnvPlain "a_upper_s.obj" =
      Except.ok (some demoRecord) ∧
    (demoRecord.pos.length = 2 ∧ demoRecord.x.length = 2 ∧
      (demoEnvPlain.mesh.vertices.length < 2 →
        gather demoEnvPlain.mesh.vertices
            (demoSamplers.randChoice demoEnvPlain.mesh.vertices.length 2) =
            some demoRecord.pos ∧
          ∀ q ∈ demoRecord.pos, q ∈ demoEnvPlain.mesh.vertices) ∧
      (¬ demoEnvPlain.mesh.vertices.length < 2 →
        (demoSamplers.fps demoEnvPlain.mesh.vertices 2).length = 2 ∧
          (demoSamplers.fps demoEnvPlain.mesh.vertices 2).Nodup ∧
          gather demoEnvPlain.mesh.vertices
            (demoSamplers.fps demoEnvPlain.mesh.vertices 2) =
            some demoRecord.pos)) :=
  ⟨demoSamplers_fps_spec, rfl,
    C1_sample_shape 2 none demoSamplers demoEnvPlain "a_upper_s.obj"
      demoRecord demoSamplers_fps_spec rfl⟩

/-- **C2.** For every mesh with a sibling segmentation annotation file,
the labels and instances arrays are re-indexed by the same
sampled-indices array used for positions and normals: both have length
`n_sample`, and at every position `i` the label, instance and position
all come from the one original vertex index `sampleIndices ... [i]`. -/
theorem C2_seg_alignment (n : Nat) (pfil : Option (Data → Bool))
    (s : Samplers) (env : FileEnv) (ann : SegAnnotations) (p : String)
    (d : Data) (hseg : env.segAnnotations = some ann)
    (h : processFile n pfil none s env p = Except.ok (some d)) :
    d.y.length = n ∧ d.instances.length = n ∧
      ∀ i, i < n → ∃ j,
        (sampleIndices n s env.mesh.vertices)[i]? = some j ∧
        d.pos[i]? = env.mesh.vertices[j]? ∧
        d.y[i]? = ann.labels[j]? ∧
        d.instances[i]? = ann.instances[j]? := by
  obtain ⟨idxs, pos, x, y, inst, kt, jaw, hs, hp, hx, hy, hl, hj, hr⟩ :=
    processFile_ok_elim h
  rcases hr with hr | hr
  · exact Option.noConfusion hr
  · have hd : d = mkRecord pos x y inst jaw kt := by
      simpa [applyTransform] using hr
    obtain ⟨hidx, hlen⟩ := sampleStage_ok_elim hs
    rw [hseg] at hy
    obtain ⟨hyl, hyi⟩ := segStage_some_elim hy
    have hpos := gatherE_ok_elim hp
    have hdpos : d.pos = pos := by simp [hd, mkRecord]
    have hdy : d.y = y := by simp [hd, mkRecord]
    have hdi : d.instances = inst := by simp [hd, mkRecord]
    refine ⟨?_, ?_, ?_⟩
    · rw [hdy, gather_length ann.labels idxs y hyl, hidx] at *
      rw [← hidx]
      exact hlen
    · rw [hdi, gather_length ann.instances idxs inst hyi, hidx] at *
      rw [← hidx]
      exact hlen
    · intro i hi
      have hilen : i < idxs.length := by rw [hlen]; exact hi
      refine ⟨idxs[i], ?_, ?_, ?_, ?_⟩
      · rw [← hidx]
        exact List.getElem?_eq_getElem hilen
      · rw [hdpos]
        exact gather_getElem? env.mesh.vertices idxs pos hpos i idxs[i]
          (List.getElem?_eq_getElem hilen)
      · rw [hdy]
        exact gather_getElem? ann.labels idxs y hyl i idxs[i]
          (List.getElem?_eq_getElem hilen)
      · rw [hdi]
        exact gather_getElem? ann.instances idxs inst hyi i idxs[i]
          (List.getElem?_eq_getElem hilen)

/-- Witness for `C2_seg_alignment`: the hypotheses hold and the
conclusion is checked on a 3-vertex mesh with a segmentation file,
`n_sample = 2`. -/
theorem C2_seg_alignment_witness :
    demoEnvSeg.segAnnotations = some demoSeg ∧
    processFile 2 none none demoSamplers demoEnvSeg "a_upper_s.obj" =
      Except.ok (some demoRecordSeg) ∧
    (demoRecordSeg.y.length = 2 ∧ demoRecordSeg.instances.length = 2 ∧
      ∀ i, i < 2 → ∃ j,
        (sampleIndices 2 demoSamplers demoEnvSeg.mesh.vertices)[i]? = some j ∧
        demoRecordSeg.pos[i]? = demoEnvSeg.mesh.vertices[j]? ∧
        demoRecordSeg.y[i]? = demoSeg.labels[j]? ∧
        demoRecordSeg.instances[i]? = demoSeg.instances[j]?) :=
  ⟨rfl, rfl,
    C2_seg_alignment 2 none demoSamplers demoEnvSeg demoSeg "a_upper_s.obj"
      demoRecordSeg rfl rfl⟩

/-- **C3, counterexample.**  The claim says that when `pre_filter`
rejects a record, nothing is persisted under that identifier's cache key.
In the code, `process` calls `torch.save(data, ...)` unconditionally
after `process_file`, so a rejected record is persisted as a cache entry
holding `None`: running the driver on one identifier whose record is
rejected by `pre_filter = (lambda d: False)` produces a store that does
contain an entry keyed by that identifier. -/
theorem C3_counterexample :
    ¬ (∀ store, processAll 2 (some (fun _ => false)) none demoSamplers
        demoDriverEnv ["a_upper_s.pt"] = Except.ok store →
        ∀ e ∈ store, e.1 ≠ "a_upper_s.pt") := by
  intro hcl
  exact hcl [("a_upper_s.pt", none)] rfl ("a_upper_s.pt", none)
    (List.mem_singleton.mpr rfl) rfl

/-- **C3, amended.** For every record that the `pre_filter` predicate
rejects, `process_file` returns null — but the driver still persists a
cache entry under that identifier's key, holding null (the cache
directory does gain an entry for that mesh identifier). -/
theorem C3_reject_persists_none (n : Nat) (pf : Data → Bool)
    (ptr : Option (Data → Data)) (s : Samplers) (denv : DriverEnv)
    (file p : String) (d : Data)
    (hres : denv.resolve ((pySplit file ".").headD "") = [p])
    (hok : processFile n none none s (denv.fsAt p) p = Except.ok (some d))
    (hrej : pf d = false) :
    processFile n (some pf) ptr s (denv.fsAt p) p = Except.ok none ∧
    processAll n (some pf) ptr s denv [file] = Except.ok [(file, none)] := by
  have h1 : processFile n (some pf) ptr s (denv.fsAt p) p = Except.ok none := by
    rw [processFile_with_filter pf ptr hok, hrej]
    simp
  refine ⟨h1, ?_⟩
  simp only [processAll, hres]
  simp [elem0, h1]

/-- Witness for `C3_reject_persists_none` at the concrete rejected
record. -/
theorem C3_reject_persists_none_witness :
    demoDriverEnv.resolve ((pySplit "a_upper_s.pt" ".").headD "") =
      ["a_upper_s.obj"] ∧
    processFile 2 none none demoSamplers
        (demoDriverEnv.fsAt "a_upper_s.obj") "a_upper_s.obj" =
      Except.ok (some demoRecord) ∧
    (fun _ : Data => false) demoRecord = false ∧
    (processFile 2 (some (fun _ => false)) none demoSamplers
        (demoDriverEnv.fsAt "a_upper_s.obj") "a_upper_s.obj" =
        Except.ok none ∧
      processAll 2 (some (fun _ => false)) none demoSamplers demoDriverEnv
        ["a_upper_s.pt"] = Except.ok [("a_upper_s.pt", none)]) :=
  ⟨rfl, rfl, rfl,
    C3_reject_persists_none 2 (fun _ => false) none demoSamplers demoDriverEnv
      "a_upper_s.pt" "a_upper_s.obj" demoRecord rfl rfl rfl⟩

/-- **C4, counterexample.**  The claim says the jaw token is extracted
from the base name, "regardless of the directory path".  The code splits
the FULL path (`file_path.split('.obj')[0].split('_')[1]`), so for
`/data/raw_data/patient007_upper_scan.obj` (directory containing `_`)
`process_file` completes with `jaw = "data/patient007"`, not
`"upper"`. -/
theorem C4_counterexample :
    (processFile 1 none none demoSamplers ⟨⟨[(0, 0, 0)], [(0, 0, 1)]⟩, none, none⟩
        "/data/raw_data/patient007_upper_scan.obj").map (Option.map Data.jaw) =
      Except.ok (some "data/patient007") ∧
    "data/patient007" ≠ "upper" := by
  constructor
  · rfl
  · decide

/-- **C4, amended.** For every processed file (no `pre_transform`
configured), the jaw field equals the second underscore-delimited segment
of the FULL file path truncated at its first `".obj"` occurrence
(`jawOf`); this coincides with the second segment of the base name for a
path with no directory prefix, e.g. `patient007_upper_scan.obj` yields
`"upper"`, but not for directory paths containing `_` or `".obj"`. -/
theorem C4_jaw_full_path (n : Nat) (pfil : Option (Data → Bool))
    (s : Samplers) (env : FileEnv) (p : String) (d : Data)
    (h : processFile n pfil none s env p = Except.ok (some d)) :
    jawOf p = some d.jaw ∧ jawOf "patient007_upper_scan.obj" = some "upper" := by
  obtain ⟨idxs, pos, x, y, inst, kt, jaw, hs, hp, hx, hy, hl, hj, hr⟩ :=
    processFile_ok_elim h
  rcases hr with hr | hr
  · exact Option.noConfusion hr
  · have hd : d = mkRecord pos x y inst jaw kt := by
      simpa [applyTransform] using hr
    constructor
    · have hjaw := (jawStage_ok_iff p jaw).mp hj
      rw [hd]
      simpa [mkRecord] using hjaw
    · rfl

/-- Witness for `C4_jaw_full_path` at a bare file name. -/
theorem C4_jaw_full_path_witness :
    processFile 2 none none demoSamplers demoEnvPlain "a_upper_s.obj" =
      Except.ok (some demoRecord) ∧
    (jawOf "a_upper_s.obj" = some demoRecord.jaw ∧
      jawOf "patient007_upper_scan.obj" = some "upper") :=
  ⟨rfl, C4_jaw_full_path 2 none demoSamplers demoEnvPlain "a_upper_s.obj"
    demoRecord rfl⟩

/-- **C5.** If the farthest-point sampler (which runs exactly when the
mesh has at least `n_sample` vertices) returns a number of indices
different from `n_sample`, `process_file` fails with the assertion error
that carries the offending file path, and returns no record at all. -/
theorem C5_sampler_mismatch_fails (n : Nat) (pfil : Option (Data → Bool))
    (ptr : Option (Data → Data)) (s : Samplers) (env : FileEnv) (p : String)
    (hge : ¬ env.mesh.vertices.length < n)
    (hbad : (s.fps env.mesh.vertices n).length ≠ n) :
    processFile n pfil ptr s env p =
      Except.error (ProcError.sampleMismatch p n
        (s.fps env.mesh.vertices n).length) := by
  have hsi : sampleIndices n s env.mesh.vertices = s.fps env.mesh.vertices n := by
    simp [sampleIndices, hge]
  have hs : sampleStage n s p env.mesh.vertices =
      Except.error (ProcError.sampleMismatch p n
        (s.fps env.mesh.vertices n).length) := by
    simp [sampleStage, hsi, hbad]
  simp [processFile, hs]

/-- Witness for `C5_sampler_mismatch_fails`: a sampler returning no
indices on a 3-vertex mesh with `n_sample = 2` aborts with the error
naming the file path. -/
theorem C5_sampler_mismatch_fails_witness :
    ¬ demoEnvPlain.mesh.vertices.length < 2 ∧
    (badSamplers.fps demoEnvPlain.mesh.vertices 2).length ≠ 2 ∧
    processFile 2 none none badSamplers demoEnvPlain "a_upper_s.obj" =
      Except.error (ProcError.sampleMismatch "a_upper_s.obj" 2
        (badSamplers.fps demoEnvPlain.mesh.vertices 2).length) :=
  ⟨by decide, by decide,
    C5_sampler_mismatch_fails 2 none none badSamplers demoEnvPlain
      "a_upper_s.obj" (by decide) (by decide)⟩

/-- **C6.** For every mesh that `process_file` completes on with no
sibling segmentation annotation file, the record's `y`/`instances`
outputs have length 0 (empty, not zero-filled); likewise with no sibling
keypoint file all six landmark groups are empty. -/
theorem C6_missing_annotation_empty (n : Nat) (pfil : Option (Data → Bool))
    (s : Samplers) (env : FileEnv) (p : String) (d : Data)
    (h : processFile n pfil none s env p = Except.ok (some d)) :
    (env.segAnnotations = none → d.y = [] ∧ d.instances = []) ∧
    (env.landmarksAnnotations = none →
      d.mesial = [] ∧ d.distal = [] ∧ d.cusp = [] ∧ d.inner_point = [] ∧
      d.outer_point = [] ∧ d.facial_point = []) := by
  obtain ⟨idxs, pos, x, y, inst, kt, jaw, hs, hp, hx, hy, hl, hj, hr⟩ :=
    processFile_ok_elim h
  rcases hr with hr | hr
  · exact Option.noConfusion hr
  · have hd : d = mkRecord pos x y inst jaw kt := by
      simpa [applyTransform] using hr
    constructor
    · intro hseg
      rw [hseg] at hy
      simp only [segStage, Except.ok.injEq, Prod.mk.injEq] at hy
      obtain ⟨h1, h2⟩ := hy
      simp [hd, mkRecord, ← h1, ← h2]
    · intro hlm
      rw [hlm] at hl
      simp only [landmarksStage, Except.ok.injEq] at hl
      simp [hd, mkRecord, ← hl]

/-- Witness for `C6_missing_annotation_empty`: both annotation files
absent in `demoEnvPlain`. -/
theorem C6_missing_annotation_empty_witness :
    processFile 2 none none demoSamplers demoEnvPlain "a_upper_s.obj" =
      Except.ok (some demoRecord) ∧
    ((demoEnvPlain.segAnnotations = none →
        demoRecord.y = [] ∧ demoRecord.instances = []) ∧
      (demoEnvPlain.landmarksAnnotations = none →
        demoRecord.mesial = [] ∧ demoRecord.distal = [] ∧
        demoRecord.cusp = [] ∧ demoRecord.inner_point = [] ∧
        demoRecord.outer_point = [] ∧ demoRecord.facial_point = [])) :=
  ⟨rfl, C6_missing_annotation_empty 2 none demoSamplers demoEnvPlain
    "a_upper_s.obj" demoRecord rfl⟩

/-- **C7.** For every keypoint file whose entries all carry recognized
class tags (and 3-component coordinates, the format the spec
describes), the landmark stage groups the coordinates by class tag,
preserving file order within each group: the result is exactly the six
`specGroup`s, and each group has one 3-vector per entry of that tag
(shape `(k, 3)` with `k` the number of entries of that tag); groups are
never merged. -/
theorem C7_landmark_grouping (objs : List Keypoint)
    (hrec : ∀ kp ∈ objs, kp.className ∈ recognizedTags)
    (hlen : ∀ kp ∈ objs, kp.coord.length = 3) :
    landmarksStage (some ⟨objs⟩) = Except.ok
      ⟨specGroup "Mesial" objs, specGroup "Distal" objs,
        specGroup "Cusp" objs, specGroup "InnerPoint" objs,
        specGroup "OuterPoint" objs, specGroup "FacialPoint" objs⟩ ∧
    ∀ tag, (specGroup tag objs).length =
      (objs.filter (fun kp => kp.className = tag)).length :=
  ⟨landmarksStage_of_recognized objs hrec hlen,
    fun _ => List.length_map _ _⟩

/-- The keypoint file of the spec's example: two `Cusp` entries and one
`Mesial` entry. -/
def demoObjs : List Keypoint :=
  [⟨"Cusp", [1, 2, 3]⟩, ⟨"Cusp", [4, 5, 6]⟩, ⟨"Mesial", [7, 8, 9]⟩]

/-- Witness for `C7_landmark_grouping` on the spec's example: the cusp
group has length 2, the mesial group length 1, the other four groups are
empty. -/
theorem C7_landmark_grouping_witness :
    (∀ kp ∈ demoObjs, kp.className ∈ recognizedTags) ∧
    (∀ kp ∈ demoObjs, kp.coord.length = 3) ∧
    (landmarksStage (some ⟨demoObjs⟩) = Except.ok
        ⟨specGroup "Mesial" demoObjs, specGroup "Distal" demoObjs,
          specGroup "Cusp" demoObjs, specGroup "InnerPoint" demoObjs,
          specGroup "OuterPoint" demoObjs, specGroup "FacialPoint" demoObjs⟩ ∧
      ∀ tag, (specGroup tag demoObjs).length =
        (demoObjs.filter (fun kp => kp.className = tag)).length) ∧
    specGroup "Cusp" demoObjs = [(1, 2, 3), (4, 5, 6)] ∧
    specGroup "Mesial" demoObjs = [(7, 8, 9)] ∧
    specGroup "Distal" demoObjs = [] ∧
    specGroup "InnerPoint" demoObjs = [] ∧
    specGroup "OuterPoint" demoObjs = [] ∧
    specGroup "FacialPoint" demoObjs = [] :=
  ⟨by decide, by decide,
    C7_landmark_grouping demoObjs (by decide) (by decide),
    rfl, rfl, rfl, rfl, rfl, rfl⟩

/-- **C8.** During a processing pass, an identifier whose glob lookup
yields zero or more than one match is skipped silently: the run is the
same as if the identifier were absent (so `process_file` is never
invoked for it), no cache entry keyed by it is ever written, and no
error is raised on its account. -/
theorem C8_skip_unresolved (n : Nat) (pfil : Option (Data → Bool))
    (ptr : Option (Data → Data)) (s : Samplers) (denv : DriverEnv)
    (file : String) (rest : List String)
    (hbad : (denv.resolve ((pySplit file ".").headD "")).length ≠ 1) :
    processAll n pfil ptr s denv (file :: rest) =
      processAll n pfil ptr s denv rest ∧
    ∀ store, processAll n pfil ptr s denv (file :: rest) = Except.ok store →
      ∀ e ∈ store, e.1 ≠ file := by
  have hskip : processAll n pfil ptr s denv (file :: rest) =
      processAll n pfil ptr s denv rest := by
    simp only [processAll]
    rw [if_neg hbad]
  refine ⟨hskip, ?_⟩
  intro store hrun e he hkey
  have hres := (processAll_ok_keys n pfil ptr s denv (file :: rest) store
    hrun e he).2
  rw [hkey] at hres
  exact hbad hres

/-- Witness for `C8_skip_unresolved`: with a resolver returning no
candidates, the single identifier is skipped and the store stays
empty. -/
theorem C8_skip_unresolved_witness :
    (demoDriverEnvEmpty.resolve ((pySplit "x_upper_s.pt" ".").headD "")).length ≠ 1 ∧
    (processAll 2 none none demoSamplers demoDriverEnvEmpty ["x_upper_s.pt"] =
        processAll 2 none none demoSamplers demoDriverEnvEmpty [] ∧
      ∀ store, processAll 2 none none demoSamplers demoDriverEnvEmpty
          ["x_upper_s.pt"] = Except.ok store →
        ∀ e ∈ store, e.1 ≠ "x_upper_s.pt") :=
  ⟨by decide,
    C8_skip_unresolved 2 none none demoSamplers demoDriverEnvEmpty
      "x_upper_s.pt" [] (by decide)⟩

/-- **C9.** The dataset length equals the number of identifiers in the
order-preserving, non-deduplicated union of the manifest split files
(one identifier per line) — `processed_file_names` is exactly that union
with `.pt` appended — and not the number of records actually persisted:
any successful processing pass writes at most `datasetLen` entries, and
identifiers skipped during processing still count toward the length. -/
theorem C9_len_is_manifest_union (sf : List (List String)) :
    datasetLen sf = (sf.map List.length).sum ∧
    processedFileNames sf =
      sf.flatten.map (fun file_name => file_name ++ ".pt") ∧
    ∀ (n : Nat) (pfil : Option (Data → Bool)) (ptr : Option (Data → Data))
      (s : Samplers) (denv : DriverEnv) (store : List (String × Option Data)),
      processAll n pfil ptr s denv (processedFileNames sf) = Except.ok store →
      store.length ≤ datasetLen sf := by
  have h1 := processedFileNames_eq sf
  refine ⟨?_, h1, ?_⟩
  · unfold datasetLen
    rw [h1, List.length_map, List.length_flatten]
  · intro n pfil ptr s denv store hrun
    have h2 := processAll_length_le n pfil ptr s denv
      (processedFileNames sf) store hrun
    simpa [datasetLen] using h2

/-- Witness for `C9_len_is_manifest_union`: a two-file manifest gives
length 2 even though a run that resolves no identifier persists zero
records. -/
theorem C9_len_is_manifest_union_witness :
    datasetLen [["a_upper_s"], ["b_lower_s"]] =
      ([["a_upper_s"], ["b_lower_s"]].map List.length).sum ∧
    datasetLen [["a_upper_s"], ["b_lower_s"]] = 2 ∧
    processAll 2 none none demoSamplers demoDriverEnvEmpty
      (processedFileNames [["a_upper_s"], ["b_lower_s"]]) = Except.ok [] ∧
    ([] : List (String × Option Data)).length ≤
      datasetLen [["a_upper_s"], ["b_lower_s"]] :=
  ⟨(C9_len_is_manifest_union [["a_upper_s"], ["b_lower_s"]]).1, rfl, rfl,
    (C9_len_is_manifest_union [["a_upper_s"], ["b_lower_s"]]).2.2 2 none none
      demoSamplers demoDriverEnvEmpty [] rfl⟩

/-- **C10.** For every keypoint file containing an object whose class tag
is not one of the six recognized landmark names, `process_file` fails on
that file with a `KeyError` for an unrecognized tag (the whole file is
rejected rather than the unknown tag being ignored) and no record is
returned — provided the earlier stages would complete (expressed as:
`process_file` completes on the same file with the keypoint file
removed). -/
theorem C10_unknown_tag_fails (n : Nat) (pfil : Option (Data → Bool))
    (ptr : Option (Data → Data)) (s : Samplers) (env : FileEnv) (p : String)
    (ann : LandmarksAnnotations) (kp : Keypoint) (r : Option Data)
    (hlm : env.landmarksAnnotations = some ann)
    (hmem : kp ∈ ann.objects) (hbad : kp.className ∉ recognizedTags)
    (hok : processFile n pfil ptr s ⟨env.mesh, env.segAnnotations, none⟩ p =
      Except.ok r) :
    ∃ tag, tag ∉ recognizedTags ∧
      processFile n pfil ptr s env p =
        Except.error (ProcError.keyError tag) := by
  obtain ⟨idxs, pos, x, y, inst, kt, jaw, hs, hp, hx, hy, hl, hj, hr⟩ :=
    processFile_ok_elim hok
  obtain ⟨tag, ht, hb⟩ :=
    buildDict_keyError ann.objects emptyKeypointsDict ⟨kp, hmem, hbad⟩
  have hl2 : landmarksStage env.landmarksAnnotations =
      Except.error (ProcError.keyError tag) := by
    rw [hlm]
    simp [landmarksStage, hb]
  exact ⟨tag, ht, processFile_landmarks_error hs hp hx hy hl2⟩

/-- The environment of the `C10` witness: `demoEnvPlain` plus a keypoint
file containing one entry with the unrecognized tag `"Unknown"`. -/
def demoEnvBadTag : FileEnv :=
  ⟨demoMesh, none, some ⟨[⟨"Unknown", [1, 2, 3]⟩]⟩⟩

/-- Witness for `C10_unknown_tag_fails` at the concrete unknown tag. -/
theorem C10_unknown_tag_fails_witness :
    demoEnvBadTag.landmarksAnnotations = some ⟨[⟨"Unknown", [1, 2, 3]⟩]⟩ ∧
    (⟨"Unknown", [1, 2, 3]⟩ : Keypoint) ∈
      (⟨[⟨"Unknown", [1, 2, 3]⟩]⟩ : LandmarksAnnotations).objects ∧
    ("Unknown" : String) ∉ recognizedTags ∧
    processFile 2 none none demoSamplers
        ⟨demoEnvBadTag.mesh, demoEnvBadTag.segAnnotations, none⟩
        "a_upper_s.obj" = Except.ok (some demoRecord) ∧
    ∃ tag, tag ∉ recognizedTags ∧
      processFile 2 none none demoSamplers demoEnvBadTag "a_upper_s.obj" =
        Except.error (ProcError.keyError tag) :=
  ⟨rfl, by decide, by decide, rfl,
    C10_unknown_tag_fails 2 none none demoSamplers demoEnvBadTag
      "a_upper_s.obj" ⟨[⟨"Unknown", [1, 2, 3]⟩]⟩ ⟨"Unknown", [1, 2, 3]⟩
      (some demoRecord) rfl (by decide) (by decide) rfl⟩
